import Mathlib

/-!
Verification of the tombstone-aware synchronization engine of the
swastik_mcp backend: the versioned local store (backend/src/db/sqlite.js),
the caller-facing memory service (backend/src/services/memoryService.js)
and the sync engine v2 (syncPush/syncPull/getSyncStatus/retryDeadLetters).

The SQLite tables are modelled as total maps from keys to optional rows,
the sync queue as a list kept in created_at ascending order, and the
network as explicit parameters (a Bool for remote-write success, Except
values for the results of remote reads).  Timestamps are abstract Nat
ticks.  JavaScript falsy coalescing (x || y) on strings is modelled by
jsOrNull / jsOrD, which collapse the empty string like JS does.
-/

namespace SwastikMcp

/-- Model of the JS expression `x || null` on an optional string: the empty
string is falsy in JS and collapses to null. -/
def jsOrNull (o : Option String) : Option String :=
  match o with
  | none => none
  | some s => if s = "" then none else some s

/-- Model of the JS expression `x || d` on an optional string with a
string default. -/
def jsOrD (o : Option String) (d : String) : String :=
  match o with
  | none => d
  | some s => if s = "" then d else s

/-- A row of the global_memory (or project_memory) table.  The value is the
JSON-serialized payload (the code stores JSON.stringify(value)). -/
structure Entry where
  value : String
  revision : Nat
  updated_at : Nat
  updated_by : Option String
  source_device_id : Option String
  deleted : Bool
  deleted_at : Option Nat
  deleted_by : Option String
  delete_reason : Option String
  infection_id : Option String
deriving Repr, DecidableEq

/-- The meta argument taken by the sqlite mutation helpers. -/
structure Meta where
  updated_by : Option String := none
  source_device_id : Option String := none
  deleted_by : Option String := none
  delete_reason : Option String := none
  infection_id : Option String := none
deriving Repr, DecidableEq

/-- The global_memory table: key to optional row. -/
def Store := String → Option Entry

/-- Point update of the table at one key. -/
def Store.update (st : Store) (key : String) (e : Entry) : Store :=
  fun k => if k = key then some e else st k

/-- The project_memory table: (project_id, key) to optional row. -/
def PStore := String → String → Option Entry

/-- Point update of the project table at one (project_id, key). -/
def PStore.update (pm : PStore) (projectId key : String) (e : Entry) : PStore :=
  fun p k => if p = projectId ∧ k = key then some e else pm p k

namespace Sqlite

/-- sqlite.getGlobalMemoryFull: SELECT * ... WHERE key = ? (null for a
missing row; JSON parsing of value is identity here). -/
def getGlobalMemoryFull (st : Store) (key : String) : Option Entry :=
  st key

/-- sqlite.setGlobalMemory: read the current revision (nextRev = existing
revision + 1, or 1 when the row is absent; the JS `existing.revision || 0`
agrees with Nat revisions), then upsert the row with the new value and
revision, clearing every tombstone field.  Returns the new revision. -/
def setGlobalMemory (st : Store) (key : String) (value : String) (meta : Meta)
    (now : Nat) : Store × Nat :=
  let nextRev : Nat :=
    match st key with
    | some e => e.revision + 1
    | none => 1
  let e : Entry :=
    { value := value
      revision := nextRev
      updated_at := now
      updated_by := jsOrNull meta.updated_by
      source_device_id := jsOrNull meta.source_device_id
      deleted := false
      deleted_at := none
      deleted_by := none
      delete_reason := none
      infection_id := none }
  (Store.update st key e, nextRev)

/-- sqlite.tombstoneGlobalMemory: returns null (and writes nothing) when the
key has no row; otherwise UPDATEs the row, setting deleted = 1 and the
deletion metadata and bumping revision, leaving value untouched. -/
def tombstoneGlobalMemory (st : Store) (key : String) (meta : Meta)
    (now : Nat) : Store × Option Nat :=
  match st key with
  | none => (st, none)
  | some e =>
    let nextRev := e.revision + 1
    let e2 : Entry :=
      { e with
        deleted := true
        deleted_at := some now
        deleted_by := jsOrNull meta.deleted_by
        delete_reason := jsOrNull meta.delete_reason
        infection_id := jsOrNull meta.infection_id
        revision := nextRev
        updated_at := now
        updated_by := jsOrNull meta.deleted_by
        source_device_id := jsOrNull meta.source_device_id }
    (Store.update st key e2, some nextRev)

/-- sqlite.restoreGlobalMemory: returns null when the key has no row or the
row is not tombstoned; otherwise clears the tombstone fields and bumps
revision. -/
def restoreGlobalMemory (st : Store) (key : String) (meta : Meta)
    (now : Nat) : Store × Option Nat :=
  match st key with
  | none => (st, none)
  | some e =>
    if e.deleted then
      let nextRev := e.revision + 1
      let e2 : Entry :=
        { e with
          deleted := false
          deleted_at := none
          deleted_by := none
          delete_reason := none
          infection_id := none
          revision := nextRev
          updated_at := now
          updated_by := jsOrNull meta.updated_by
          source_device_id := jsOrNull meta.source_device_id }
      (Store.update st key e2, some nextRev)
    else (st, none)

/-- sqlite.getProjectMemoryFull. -/
def getProjectMemoryFull (pm : PStore) (projectId key : String) : Option Entry :=
  pm projectId key

/-- sqlite.setProjectMemory: same logic as setGlobalMemory over the
(project_id, key) table. -/
def setProjectMemory (pm : PStore) (projectId key value : String) (meta : Meta)
    (now : Nat) : PStore × Nat :=
  let nextRev : Nat :=
    match pm projectId key with
    | some e => e.revision + 1
    | none => 1
  let e : Entry :=
    { value := value
      revision := nextRev
      updated_at := now
      updated_by := jsOrNull meta.updated_by
      source_device_id := jsOrNull meta.source_device_id
      deleted := false
      deleted_at := none
      deleted_by := none
      delete_reason := none
      infection_id := none }
  (PStore.update pm projectId key e, nextRev)

/-- sqlite.tombstoneProjectMemory: same logic as tombstoneGlobalMemory over
the (project_id, key) table. -/
def tombstoneProjectMemory (pm : PStore) (projectId key : String) (meta : Meta)
    (now : Nat) : PStore × Option Nat :=
  match pm projectId key with
  | none => (pm, none)
  | some e =>
    let nextRev := e.revision + 1
    let e2 : Entry :=
      { e with
        deleted := true
        deleted_at := some now
        deleted_by := jsOrNull meta.deleted_by
        delete_reason := jsOrNull meta.delete_reason
        infection_id := jsOrNull meta.infection_id
        revision := nextRev
        updated_at := now
        updated_by := jsOrNull meta.deleted_by
        source_device_id := jsOrNull meta.source_device_id }
    (PStore.update pm projectId key e2, some nextRev)

end Sqlite

/-- The operation column of sync_queue: CHECK(operation IN (SET, DELETE,
TOMBSTONE)). -/
inductive SyncOp
  | set
  | del
  | tombstone
deriving Repr, DecidableEq

/-- The payload object built by the memory service and stored (JSON
serialized) in sync_queue.payload; it mirrors the MemoryEntry schema. -/
structure Payload where
  value : Option String := none
  revision : Nat
  updated_at : Nat
  updated_by : Option String := none
  source_device_id : Option String := none
  deleted : Bool
  deleted_at : Option Nat := none
  deleted_by : Option String := none
  delete_reason : Option String := none
  infection_id : Option String := none
deriving Repr, DecidableEq

/-- A row of the sync_queue table. -/
structure QueueItem where
  id : Nat
  collection : String
  doc_path : String
  operation : SyncOp
  payload : Option Payload
  created_at : Nat
  synced : Bool
  retry_count : Nat
  last_error : Option String
  dead_letter : Bool
deriving Repr, DecidableEq

namespace Sqlite

/-- sqlite.getPendingSyncItems: SELECT * WHERE synced = 0 AND dead_letter = 0
ORDER BY created_at ASC.  The model keeps the queue list in created_at
ascending insertion order, so a filter preserves that order. -/
def getPendingSyncItems (q : List QueueItem) : List QueueItem :=
  q.filter (fun it => !it.synced && !it.dead_letter)

/-- sqlite.markSynced: UPDATE sync_queue SET synced = 1 WHERE id = ?.
Note that it does not touch dead_letter. -/
def markSynced (q : List QueueItem) (id : Nat) : List QueueItem :=
  q.map (fun it => if it.id = id then { it with synced := true } else it)

/-- sqlite.markSyncFailed: UPDATE SET retry_count = retry_count + 1,
last_error = ?, dead_letter = CASE WHEN retry_count >= 4 THEN 1 ELSE 0 END
WHERE id = ?.  SQL SET clauses all read the pre-update row, so dead_letter
is computed from the old retry_count. -/
def markSyncFailed (q : List QueueItem) (id : Nat) (err : String) :
    List QueueItem :=
  q.map (fun it =>
    if it.id = id then
      { it with
        retry_count := it.retry_count + 1
        last_error := some err
        dead_letter := decide (4 ≤ it.retry_count) }
    else it)

/-- sqlite.getDeadLetterItems: SELECT * WHERE dead_letter = 1 (with no
condition on synced). -/
def getDeadLetterItems (q : List QueueItem) : List QueueItem :=
  q.filter (fun it => it.dead_letter)

/-- sqlite.updateDeviceLastSync: UPDATE devices SET last_sync = now WHERE
device_id = ?.  The devices table maps a device id to an optional row whose
content here is its nullable last_sync; a SQL UPDATE on a missing row is a
no-op. -/
def updateDeviceLastSync (dvs : String → Option (Option Nat))
    (deviceId : String) (now : Nat) : String → Option (Option Nat) :=
  fun d => if d = deviceId then (dvs d).map (fun _ => some now) else dvs d

/-- sqlite.getDeviceLastSync: null both for a missing row and for a row
whose last_sync is NULL. -/
def getDeviceLastSync (dvs : String → Option (Option Nat))
    (deviceId : String) : Option Nat :=
  match dvs deviceId with
  | none => none
  | some ls => ls

end Sqlite

/-- A row of the audit_log table (details is the serialized free-form
object the caller passed). -/
structure AuditEntry where
  action : String
  collection : String
  doc_path : String
  actor_uid : Option String
  details : Option Meta
  timestamp : Nat
deriving Repr, DecidableEq

/-- The whole local SQLite database state touched by the components under
verification. -/
structure DbState where
  globalMem : Store
  projectMem : PStore
  queue : List QueueItem
  nextQueueId : Nat
  devices : String → Option (Option Nat)
  audit : List AuditEntry

namespace Sqlite

/-- sqlite.enqueueSync: INSERT INTO sync_queue with AUTOINCREMENT id and
defaults synced = 0, retry_count = 0, dead_letter = 0,
created_at = datetime(now). -/
def enqueueSync (db : DbState) (collection docPath : String) (op : SyncOp)
    (payload : Option Payload) (now : Nat) : DbState :=
  { db with
    queue := db.queue ++
      [{ id := db.nextQueueId
         collection := collection
         doc_path := docPath
         operation := op
         payload := payload
         created_at := now
         synced := false
         retry_count := 0
         last_error := none
         dead_letter := false }]
    nextQueueId := db.nextQueueId + 1 }

/-- sqlite.logAudit: INSERT INTO audit_log. -/
def logAudit (db : DbState) (action collection docPath : String)
    (actorUid : Option String) (details : Option Meta) (now : Nat) : DbState :=
  { db with
    audit := db.audit ++
      [{ action := action
         collection := collection
         doc_path := docPath
         actor_uid := actorUid
         details := details
         timestamp := now }] }

end Sqlite

namespace MemoryService

/-- The MemoryServiceError codes thrown by memoryService.js. -/
inductive MemErr
  | unauthorized
  | forbidden
  | serverMisconfig
  | badRequest
  | notFound
deriving Repr, DecidableEq

/-- The request context: decoded auth uid and device id. -/
structure Ctx where
  uid : Option String := none
  deviceId : Option String := none
deriving Repr, DecidableEq

/-- DEFAULT_DEVICE_ID = process.env.DEVICE_ID || backend-primary. -/
def DEFAULT_DEVICE_ID : String := "backend-primary"

/-- asMeta(context): uid plus sourceDeviceId with the device default. -/
structure SvcMeta where
  uid : Option String
  sourceDeviceId : String
deriving Repr, DecidableEq

/-- memoryService.asMeta. -/
def asMeta (ctx : Ctx) : SvcMeta :=
  { uid := ctx.uid, sourceDeviceId := jsOrD ctx.deviceId DEFAULT_DEVICE_ID }

/-- The SQLite fallback branch of memoryService.getGlobalMemory (lines
124-128): the Firestore read is external network I/O and when it is
unavailable the function falls through to the local row.  NotFound when the
row is absent, or tombstoned and includeDeleted is false. -/
def getGlobalMemorySqlite (st : Store) (key : String) (includeDeleted : Bool) :
    Except MemErr Entry :=
  match Sqlite.getGlobalMemoryFull st key with
  | none => Except.error MemErr.notFound
  | some full =>
    if full.deleted && !includeDeleted then Except.error MemErr.notFound
    else Except.ok full

/-- The result object of the write operations: {status, key, revision}. -/
structure SvcResult where
  status : String
  key : String
  revision : Nat
deriving Repr, DecidableEq

/-- memoryService.setGlobalMemory: ensureAuth, validate key, write the local
row (always), build the payload, then try the remote merge-write; on remote
failure (remoteOk = false) enqueue a SET outbox item and report queued
instead of synced.  The caller never sees a remote error. -/
def setGlobalMemory (db : DbState) (ctx : Ctx) (key value : String)
    (remoteOk : Bool) (now : Nat) : Except MemErr (SvcResult × DbState) :=
  match jsOrNull ctx.uid with
  | none => Except.error MemErr.unauthorized
  | some _uid =>
    if key = "" then Except.error MemErr.badRequest
    else
      let meta := asMeta ctx
      let res := Sqlite.setGlobalMemory db.globalMem key value
        { updated_by := meta.uid, source_device_id := some meta.sourceDeviceId } now
      let revision := res.2
      let db1 : DbState := { db with globalMem := res.1 }
      let payload : Payload :=
        { value := some value
          revision := revision
          updated_at := now
          updated_by := meta.uid
          source_device_id := some meta.sourceDeviceId
          deleted := false }
      if remoteOk then
        Except.ok ({ status := "synced", key := key, revision := revision }, db1)
      else
        Except.ok ({ status := "queued", key := key, revision := revision },
          Sqlite.enqueueSync db1 "global_memory" key SyncOp.set (some payload) now)

/-- memoryService.deleteGlobalMemory: ensureAuth, ensureOwner, tombstone the
local row (NotFound when it does not exist), append the local audit row,
then try the remote merge-write; on remote failure enqueue a TOMBSTONE
outbox item and report queued-delete instead of deleted.  The Firestore
audit write is best-effort and swallows its own errors, so it has no local
effect. -/
def deleteGlobalMemory (db : DbState) (ctx : Ctx) (ownerUid : Option String)
    (key : String) (reason : Option String) (infectionId : Option String)
    (remoteOk : Bool) (now : Nat) : Except MemErr (SvcResult × DbState) :=
  match jsOrNull ctx.uid with
  | none => Except.error MemErr.unauthorized
  | some _ =>
    match jsOrNull ownerUid with
    | none => Except.error MemErr.serverMisconfig
    | some owner =>
      if ctx.uid = some owner then
        let meta := asMeta ctx
        let details : Meta :=
          { deleted_by := meta.uid
            delete_reason := some (jsOrD reason "Manual delete")
            infection_id := jsOrNull infectionId
            source_device_id := some meta.sourceDeviceId }
        match Sqlite.tombstoneGlobalMemory db.globalMem key details now with
        | (_, none) => Except.error MemErr.notFound
        | (st2, some revision) =>
          let db1 : DbState :=
            Sqlite.logAudit { db with globalMem := st2 }
              "DELETE" "global_memory" key meta.uid (some details) now
          let payload : Payload :=
            { deleted := true
              deleted_at := some now
              deleted_by := meta.uid
              delete_reason := some (jsOrD reason "Manual delete")
              infection_id := jsOrNull infectionId
              revision := revision
              updated_at := now
              updated_by := meta.uid
              source_device_id := some meta.sourceDeviceId }
          if remoteOk then
            Except.ok ({ status := "deleted", key := key, revision := revision }, db1)
          else
            Except.ok ({ status := "queued-delete", key := key, revision := revision },
              Sqlite.enqueueSync db1 "global_memory" key SyncOp.tombstone (some payload) now)
      else Except.error MemErr.forbidden

/-- memoryService.restoreGlobalMemory: ensureAuth, ensureOwner, restore the
local row (NotFound when it does not exist or is not tombstoned), append the
local audit row, then try the remote merge-write; on remote failure enqueue
a SET outbox item (the source enqueues the restore payload under SET) and
report queued-restore instead of restored. -/
def restoreGlobalMemory (db : DbState) (ctx : Ctx) (ownerUid : Option String)
    (key : String) (remoteOk : Bool) (now : Nat) :
    Except MemErr (SvcResult × DbState) :=
  match jsOrNull ctx.uid with
  | none => Except.error MemErr.unauthorized
  | some _ =>
    match jsOrNull ownerUid with
    | none => Except.error MemErr.serverMisconfig
    | some owner =>
      if ctx.uid = some owner then
        let meta := asMeta ctx
        match Sqlite.restoreGlobalMemory db.globalMem key
            { updated_by := meta.uid, source_device_id := some meta.sourceDeviceId } now with
        | (_, none) => Except.error MemErr.notFound
        | (st2, some revision) =>
          let db1 : DbState :=
            Sqlite.logAudit { db with globalMem := st2 }
              "RESTORE" "global_memory" key meta.uid (some {}) now
          let payload : Payload :=
            { deleted := false
              revision := revision
              updated_at := now
              updated_by := meta.uid
              source_device_id := some meta.sourceDeviceId }
          if remoteOk then
            Except.ok ({ status := "restored", key := key, revision := revision }, db1)
          else
            Except.ok ({ status := "queued-restore", key := key, revision := revision },
              Sqlite.enqueueSync db1 "global_memory" key SyncOp.set (some payload) now)
      else Except.error MemErr.forbidden

end MemoryService

namespace SyncEngine

/-- A Firestore document as seen by syncPull: doc.id plus the fields read by
the engine.  revision is optional because the engine reads
`data.revision || 0`. -/
structure RemoteDoc where
  id : String
  value : String
  revision : Option Nat
  deleted : Bool
  updated_by : Option String := none
  source_device_id : Option String := none
  deleted_by : Option String := none
  delete_reason : Option String := none
  infection_id : Option String := none
deriving Repr, DecidableEq

/-- remoteRev = data.revision || 0. -/
def RemoteDoc.remoteRev (doc : RemoteDoc) : Nat :=
  doc.revision.getD 0

/-- The meta object the pull tombstone branch passes to the sqlite
tombstone helper: deleted_by/delete_reason/source_device_id defaulted with
|| and infection_id with || null. -/
def pullTombMeta (doc : RemoteDoc) : Meta :=
  { deleted_by := some (jsOrD doc.deleted_by "sync")
    delete_reason := some (jsOrD doc.delete_reason "Synced tombstone")
    infection_id := jsOrNull doc.infection_id
    source_device_id := some (jsOrD doc.source_device_id "remote") }

/-- The meta object the pull upsert branch passes to the sqlite set
helper. -/
def pullSetMeta (doc : RemoteDoc) : Meta :=
  { updated_by := some (jsOrD doc.updated_by "sync")
    source_device_id := some (jsOrD doc.source_device_id "remote") }

/-- Whether the loop body counted the document as pulled or skipped. -/
inductive DocOutcome
  | pulled
  | skipped
deriving Repr, DecidableEq

/-- One iteration of the global-memory loop of syncPull.  The JS sets
localRev to the local revision, or -1 when the row is absent; since
remoteRev >= 0, the stale-skip test localRev > remoteRev is always false
for an absent row, which the match below encodes without signed
arithmetic.  Branches, in source order: skip when local is strictly newer;
propagate a remote tombstone through sqlite.tombstoneGlobalMemory (a no-op
when the row is absent, but still counted as pulled); skip a remote live
value when the local row is tombstoned at a revision >= remote; otherwise
upsert the remote value.  The new local revision always comes from the
local row, never from the remote document. -/
def pullApplyGlobalDoc (st : Store) (doc : RemoteDoc) (now : Nat) :
    Store × DocOutcome :=
  match st doc.id with
  | none =>
    if doc.deleted then
      ((Sqlite.tombstoneGlobalMemory st doc.id (pullTombMeta doc) now).1,
        DocOutcome.pulled)
    else
      ((Sqlite.setGlobalMemory st doc.id doc.value (pullSetMeta doc) now).1,
        DocOutcome.pulled)
  | some e =>
    if doc.remoteRev < e.revision then (st, DocOutcome.skipped)
    else if doc.deleted then
      ((Sqlite.tombstoneGlobalMemory st doc.id (pullTombMeta doc) now).1,
        DocOutcome.pulled)
    else if e.deleted && decide (doc.remoteRev ≤ e.revision) then
      (st, DocOutcome.skipped)
    else
      ((Sqlite.setGlobalMemory st doc.id doc.value (pullSetMeta doc) now).1,
        DocOutcome.pulled)

/-- One iteration of the per-project entries loop of syncPull; same shape as
the global loop over the (project_id, key) table. -/
def pullApplyProjectDoc (pm : PStore) (projId : String) (doc : RemoteDoc)
    (now : Nat) : PStore × DocOutcome :=
  match pm projId doc.id with
  | none =>
    if doc.deleted then
      ((Sqlite.tombstoneProjectMemory pm projId doc.id (pullTombMeta doc) now).1,
        DocOutcome.pulled)
    else
      ((Sqlite.setProjectMemory pm projId doc.id doc.value (pullSetMeta doc) now).1,
        DocOutcome.pulled)
  | some e =>
    if doc.remoteRev < e.revision then (pm, DocOutcome.skipped)
    else if doc.deleted then
      ((Sqlite.tombstoneProjectMemory pm projId doc.id (pullTombMeta doc) now).1,
        DocOutcome.pulled)
    else if e.deleted && decide (doc.remoteRev ≤ e.revision) then
      (pm, DocOutcome.skipped)
    else
      ((Sqlite.setProjectMemory pm projId doc.id doc.value (pullSetMeta doc) now).1,
        DocOutcome.pulled)

/-- The global loop of syncPull over the query result, threading the store
and the pulled/skipped counters. -/
def pullGlobalDocs (st : Store) (docs : List RemoteDoc) (now : Nat) :
    Store × Nat × Nat :=
  docs.foldl
    (fun acc doc =>
      match pullApplyGlobalDoc acc.1 doc now with
      | (st2, DocOutcome.pulled) => (st2, acc.2.1 + 1, acc.2.2)
      | (st2, DocOutcome.skipped) => (st2, acc.2.1, acc.2.2 + 1))
    (st, 0, 0)

/-- The entries loop of syncPull for one project. -/
def pullProjectEntries (pm : PStore) (projId : String) (docs : List RemoteDoc)
    (now : Nat) : PStore × Nat × Nat :=
  docs.foldl
    (fun acc doc =>
      match pullApplyProjectDoc acc.1 projId doc now with
      | (pm2, DocOutcome.pulled) => (pm2, acc.2.1 + 1, acc.2.2)
      | (pm2, DocOutcome.skipped) => (pm2, acc.2.1, acc.2.2 + 1))
    (pm, 0, 0)

/-- The outer project loop of syncPull.  Each project carries the result of
its own entries range query; the first failing query aborts the loop (in
the JS the await throws and control reaches the catch), returning the state
reached so far, the counters and the error message. -/
def pullProjects (pm : PStore)
    (projs : List (String × Except String (List RemoteDoc))) (now : Nat) :
    PStore × Nat × Nat × Option String :=
  match projs with
  | [] => (pm, 0, 0, none)
  | (projId, fetch) :: rest =>
    match fetch with
    | Except.error e => (pm, 0, 0, some e)
    | Except.ok docs =>
      let step := pullProjectEntries pm projId docs now
      let tail := pullProjects step.1 rest now
      (tail.1, step.2.1 + tail.2.1, step.2.2 + tail.2.2.1, tail.2.2.2)

/-- The object returned by syncPull: {status: ok, pulled, skipped, deviceId}
on success, or an error status object.  The early getFirestore failure
returns {status: error, error, pulled: 0} without a skipped field, hence the
optional skipped. -/
inductive PullResult
  | ok (pulled skipped : Nat) (deviceId : String)
  | error (msg : String) (pulled : Nat) (skipped : Option Nat)
deriving Repr, DecidableEq

/-- syncPull(deviceId): resolve the cursor, query global and project changes
since it, merge each document by revision comparison, then advance the
cursor.  The remote reads are passed in as the results the queries would
return (the remote store is an external collaborator); fbAvailable models
getFirestore() succeeding.  Any failing read reaches the catch block, which
returns a status object (never throws) and does not update the device
cursor; the cursor is written only after both loops complete. -/
def syncPull (db : DbState) (deviceId : String) (fbAvailable : Bool)
    (globalFetch : Except String (List RemoteDoc))
    (projectFetch : List (String × Except String (List RemoteDoc)))
    (now : Nat) : DbState × PullResult :=
  if !fbAvailable then
    (db, PullResult.error "Firebase unavailable" 0 none)
  else
    match globalFetch with
    | Except.error e => (db, PullResult.error e 0 (some 0))
    | Except.ok gdocs =>
      let g := pullGlobalDocs db.globalMem gdocs now
      let db1 : DbState := { db with globalMem := g.1 }
      let pr := pullProjects db1.projectMem projectFetch now
      let db2 : DbState := { db1 with projectMem := pr.1 }
      match pr.2.2.2 with
      | some e =>
        (db2, PullResult.error e (g.2.1 + pr.2.1) (some (g.2.2 + pr.2.2.1)))
      | none =>
        ({ db2 with
            devices := Sqlite.updateDeviceLastSync db2.devices deviceId now },
          PullResult.ok (g.2.1 + pr.2.1) (g.2.2 + pr.2.2.1) deviceId)

/-- The object returned by getSyncStatus. -/
structure SyncStatus where
  pending : Nat
  deadLetters : Nat
  items : List QueueItem
  dead : List QueueItem
deriving Repr, DecidableEq

/-- getSyncStatus(): queue depth, dead-letter count and bounded samples. -/
def getSyncStatus (q : List QueueItem) : SyncStatus :=
  let pending := Sqlite.getPendingSyncItems q
  let deadLetters := Sqlite.getDeadLetterItems q
  { pending := pending.length
    deadLetters := deadLetters.length
    items := pending.take 20
    dead := deadLetters.take 10 }

/-- retryDeadLetters(): re-attempt each dead-letter item once against the
remote (remoteOk tells which pushes succeed), calling markSynced on each
success and leaving failures untouched.  Returns the new queue, the retried
count and (when the loop ran) the total; the early returns for an empty
dead list and for Firebase being unavailable skip the loop. -/
def retryDeadLetters (q : List QueueItem) (fbAvailable : Bool)
    (remoteOk : Nat → Bool) : List QueueItem × Nat × Option Nat :=
  let dead := Sqlite.getDeadLetterItems q
  if dead.isEmpty then (q, 0, none)
  else if !fbAvailable then (q, 0, none)
  else
    let q2 := dead.foldl
      (fun acc it => if remoteOk it.id then Sqlite.markSynced acc it.id else acc) q
    (q2, dead.countP (fun it => remoteOk it.id), some dead.length)

end SyncEngine

namespace Sqlite

/-- One local mutation on a fixed key, as classified by the spec data
model: set, tombstone or restore. -/
inductive Mutation
  | set (value : String) (meta : Meta)
  | tombstone (meta : Meta)
  | restore (meta : Meta)
deriving Repr

/-- Run one mutation through the corresponding sqlite helper; none when the
helper reports failure (tombstone or restore returning null). -/
def applyMutation (st : Store) (key : String) (now : Nat) :
    Mutation → Option (Store × Nat)
  | Mutation.set v meta => some (setGlobalMemory st key v meta now)
  | Mutation.tombstone meta =>
    match tombstoneGlobalMemory st key meta now with
    | (_, none) => none
    | (st2, some r) => some (st2, r)
  | Mutation.restore meta =>
    match restoreGlobalMemory st key meta now with
    | (_, none) => none
    | (st2, some r) => some (st2, r)

/-- Run a sequence of mutations on one key, collecting the returned
revisions; none as soon as one mutation fails. -/
def runMutations (key : String) (now : Nat) :
    Store → List Mutation → Option (Store × List Nat)
  | st, [] => some (st, [])
  | st, m :: ms =>
    match applyMutation st key now m with
    | none => none
    | some (st2, r) =>
      match runMutations key now st2 ms with
      | none => none
      | some (st3, rs) => some (st3, r :: rs)

/-- The revision the store holds for a key, with 0 for an absent row (the
JS reads `existing.revision || 0`). -/
def revAt (st : Store) (key : String) : Nat :=
  match st key with
  | some e => e.revision
  | none => 0

/-- The effect of one markSyncFailed call on the targeted row. -/
def failItem (it : QueueItem) (err : String) : QueueItem :=
  { it with
    retry_count := it.retry_count + 1
    last_error := some err
    dead_letter := decide (4 ≤ it.retry_count) }

/-- The targeted row after n markSyncFailed calls with error messages
errs 0, errs 1, .... -/
def failItemN (it : QueueItem) (errs : Nat → String) : Nat → QueueItem
  | 0 => it
  | n + 1 => failItem (failItemN it errs n) (errs n)

/-- The queue after n markSyncFailed calls against one id. -/
def markFailedN (q : List QueueItem) (id : Nat) (errs : Nat → String) :
    Nat → List QueueItem
  | 0 => q
  | n + 1 => markSyncFailed (markFailedN q id errs n) id (errs n)

end Sqlite

/-! Concrete fixtures used to instantiate the theorems below on explicit
inputs. -/

/-- An empty global_memory table. -/
def emptyStore : Store := fun _ => none

/-- A live sample row at a given revision. -/
def sampleLive (rev : Nat) : Entry :=
  { value := "a1"
    revision := rev
    updated_at := 0
    updated_by := some "u"
    source_device_id := some "devA"
    deleted := false
    deleted_at := none
    deleted_by := none
    delete_reason := none
    infection_id := none }

/-- A tombstoned sample row at a given revision. -/
def sampleTomb (rev : Nat) : Entry :=
  { sampleLive rev with
    deleted := true
    deleted_at := some 1
    deleted_by := some "owner"
    delete_reason := some "cleanup" }

/-- A one-row table holding the sample entry under key k. -/
def storeK (e : Entry) : Store := Store.update emptyStore "k" e

/-- A live remote document for key k at a given revision. -/
def liveDoc (rev : Nat) : SyncEngine.RemoteDoc :=
  { id := "k"
    value := "b2"
    revision := some rev
    deleted := false
    updated_by := some "ru"
    source_device_id := some "devB" }

/-- A tombstoned remote document for key k at a given revision. -/
def tombDoc (rev : Nat) : SyncEngine.RemoteDoc :=
  { id := "k"
    value := "a1"
    revision := some rev
    deleted := true
    deleted_by := some "ru"
    delete_reason := some "rm"
    source_device_id := some "devB" }

/-- A dead-lettered outbox row (5 failed pushes). -/
def deadItem : QueueItem :=
  { id := 1
    collection := "global_memory"
    doc_path := "k"
    operation := SyncOp.set
    payload := none
    created_at := 0
    synced := false
    retry_count := 5
    last_error := some "offline"
    dead_letter := true }

/-- A fresh pending outbox row (never failed). -/
def freshItem : QueueItem :=
  { id := 2
    collection := "global_memory"
    doc_path := "k"
    operation := SyncOp.set
    payload := none
    created_at := 0
    synced := false
    retry_count := 0
    last_error := none
    dead_letter := false }

/-- Writer metadata for the Scenario A set. -/
def metaU : Meta := { updated_by := some "u", source_device_id := some "devA" }

/-- Deletion metadata for the Scenario A tombstone. -/
def metaD : Meta :=
  { deleted_by := some "owner"
    delete_reason := some "cleanup"
    source_device_id := some "devA" }

/-- Scenario A after set(global, x, a1): revision 1. -/
def scenAStore1 : Store :=
  (Sqlite.setGlobalMemory emptyStore "x" "a1" metaU 0).1

/-- Scenario A after the subsequent tombstone(global, x, cleanup):
revision 2. -/
def scenAStore2 : Store :=
  (Sqlite.tombstoneGlobalMemory scenAStore1 "x" metaD 1).1

/-- An empty local database with one registered device devA whose last_sync
is NULL. -/
def emptyDb : DbState :=
  { globalMem := emptyStore
    projectMem := fun _ _ => none
    queue := []
    nextQueueId := 1
    devices := fun d => if d = "devA" then some none else none
    audit := [] }

/-- An authenticated owner request context. -/
def ctxOwner : MemoryService.Ctx := { uid := some "owner", deviceId := some "devA" }

/-- A database whose global store holds one tombstoned row under k. -/
def dbTomb : DbState := { emptyDb with globalMem := storeK (sampleTomb 1) }

open Sqlite SyncEngine MemoryService

/-- C6: anti-regression on pull — with a local row at revision R, pulling
any remote record (live or tombstoned) whose revision is strictly below R
returns the store unchanged and counts the document as skipped. -/
theorem C6_anti_regression_on_pull (st : Store) (doc : RemoteDoc) (e : Entry)
    (now : Nat) (hloc : st doc.id = some e)
    (hlt : doc.remoteRev < e.revision) :
    pullApplyGlobalDoc st doc now = (st, DocOutcome.skipped) := by
  unfold pullApplyGlobalDoc
  rw [hloc]
  simp [hlt]

/-- C6 witness: local revision 3, remote live document at revision 2. -/
theorem C6_anti_regression_on_pull_witness :
    storeK (sampleLive 3) (liveDoc 2).id = some (sampleLive 3) ∧
    (liveDoc 2).remoteRev < (sampleLive 3).revision ∧
    pullApplyGlobalDoc (storeK (sampleLive 3)) (liveDoc 2) 7
      = (storeK (sampleLive 3), DocOutcome.skipped) :=
  ⟨rfl, by decide,
    C6_anti_regression_on_pull (storeK (sampleLive 3)) (liveDoc 2)
      (sampleLive 3) 7 rfl (by decide)⟩

/-- C1: a locally tombstoned key at revision R is never resurrected by a
remote live document at revision at most R (the document is skipped and the
store is unchanged), while a remote live document at revision above R is
applied: the value is upserted and every tombstone field is cleared (the
new local revision being R + 1). -/
theorem C1_tombstone_non_resurrection (st : Store) (doc : RemoteDoc)
    (e : Entry) (now : Nat) (hloc : st doc.id = some e)
    (hdel : e.deleted = true) (hlive : doc.deleted = false) :
    (doc.remoteRev ≤ e.revision →
      pullApplyGlobalDoc st doc now = (st, DocOutcome.skipped)) ∧
    (e.revision < doc.remoteRev →
      pullApplyGlobalDoc st doc now =
        (Store.update st doc.id
          { value := doc.value
            revision := e.revision + 1
            updated_at := now
            updated_by := jsOrNull (pullSetMeta doc).updated_by
            source_device_id := jsOrNull (pullSetMeta doc).source_device_id
            deleted := false
            deleted_at := none
            deleted_by := none
            delete_reason := none
            infection_id := none },
          DocOutcome.pulled)) := by
  constructor
  · intro h
    unfold pullApplyGlobalDoc
    rw [hloc]
    by_cases hlt : doc.remoteRev < e.revision
    · simp [hlt]
    · simp [hlt, hlive, hdel, h]
  · intro h
    unfold pullApplyGlobalDoc
    rw [hloc]
    have h1 : ¬ doc.remoteRev < e.revision := by omega
    have h2 : ¬ doc.remoteRev ≤ e.revision := by omega
    simp [h1, h2, hlive, hdel, Sqlite.setGlobalMemory, hloc]

/-- C1 witness: local tombstone at revision 3; a remote live document at
revision 3 is skipped, a remote live document at revision 4 is applied and
clears the tombstone fields. -/
theorem C1_tombstone_non_resurrection_witness :
    (storeK (sampleTomb 3) (liveDoc 3).id = some (sampleTomb 3) ∧
      (sampleTomb 3).deleted = true ∧ (liveDoc 3).deleted = false ∧
      (liveDoc 3).remoteRev ≤ (sampleTomb 3).revision ∧
      pullApplyGlobalDoc (storeK (sampleTomb 3)) (liveDoc 3) 7
        = (storeK (sampleTomb 3), DocOutcome.skipped)) ∧
    ((sampleTomb 3).revision < (liveDoc 4).remoteRev ∧
      pullApplyGlobalDoc (storeK (sampleTomb 3)) (liveDoc 4) 7
        = (Store.update (storeK (sampleTomb 3)) (liveDoc 4).id
            { value := (liveDoc 4).value
              revision := (sampleTomb 3).revision + 1
              updated_at := 7
              updated_by := jsOrNull (pullSetMeta (liveDoc 4)).updated_by
              source_device_id :=
                jsOrNull (pullSetMeta (liveDoc 4)).source_device_id
              deleted := false
              deleted_at := none
              deleted_by := none
              delete_reason := none
              infection_id := none },
            DocOutcome.pulled)) :=
  ⟨⟨rfl, rfl, rfl, by decide,
      (C1_tombstone_non_resurrection (storeK (sampleTomb 3)) (liveDoc 3)
        (sampleTomb 3) 7 rfl rfl rfl).1 (by decide)⟩,
    ⟨by decide,
      (C1_tombstone_non_resurrection (storeK (sampleTomb 3)) (liveDoc 4)
        (sampleTomb 3) 7 rfl rfl rfl).2 (by decide)⟩⟩

/-- C2 counterexample: remote has key k tombstoned at revision 4 and the
key has never existed locally; after the pull the local store still has no
row at all for k (no tombstoned record at revision 4 is created, because
tombstoneGlobalMemory returns null on an absent row), even though the
document is counted as pulled. -/
theorem C2_counterexample :
    (pullApplyGlobalDoc emptyStore (tombDoc 4) 5).1 "k" = none ∧
    (pullApplyGlobalDoc emptyStore (tombDoc 4) 5).2 = DocOutcome.pulled ∧
    getGlobalMemorySqlite (pullApplyGlobalDoc emptyStore (tombDoc 4) 5).1 "k"
        false
      = Except.error MemErr.notFound :=
  ⟨rfl, rfl, rfl⟩

/-- C2 amended: pulling a remote tombstoned document for a key that has
never existed locally performs no local write (the store is returned
unchanged, so no local tombstoned record is created), although the
document is counted as pulled; a subsequent get with includeDeleted = false
returns NotFound. -/
theorem C2_pull_tombstone_absent_key (st : Store) (doc : RemoteDoc)
    (now : Nat) (habs : st doc.id = none) (hdel : doc.deleted = true) :
    pullApplyGlobalDoc st doc now = (st, DocOutcome.pulled) ∧
    getGlobalMemorySqlite st doc.id false = Except.error MemErr.notFound := by
  constructor
  · unfold pullApplyGlobalDoc
    rw [habs]
    simp [hdel, Sqlite.tombstoneGlobalMemory, habs]
  · unfold getGlobalMemorySqlite Sqlite.getGlobalMemoryFull
    rw [habs]

/-- C2 amended witness: the empty store and a remote tombstone at
revision 4. -/
theorem C2_pull_tombstone_absent_key_witness :
    emptyStore (tombDoc 4).id = none ∧ (tombDoc 4).deleted = true ∧
    (pullApplyGlobalDoc emptyStore (tombDoc 4) 5 = (emptyStore, DocOutcome.pulled) ∧
      getGlobalMemorySqlite emptyStore (tombDoc 4).id false
        = Except.error MemErr.notFound) :=
  ⟨rfl, rfl, C2_pull_tombstone_absent_key emptyStore (tombDoc 4) 5 rfl rfl⟩

/-- C8: tombstoning writes only the deletion fields, revision and updated
metadata and keeps the stored value; Scenario A: set(global, x, a1) gives
revision 1, tombstone(global, x, cleanup) gives revision 2, get without
includeDeleted is NotFound, and get with includeDeleted returns the record
with value a1 and deleted = true. -/
theorem C8_tombstone_is_metadata_only (st : Store) (key : String) (e : Entry)
    (meta : Meta) (now : Nat) (hloc : st key = some e) :
    (∃ e2,
      Sqlite.tombstoneGlobalMemory st key meta now
        = (Store.update st key e2, some (e.revision + 1)) ∧
      e2.value = e.value ∧ e2.revision = e.revision + 1 ∧
      e2.deleted = true) ∧
    ((Sqlite.setGlobalMemory emptyStore "x" "a1" metaU 0).2 = 1 ∧
      (Sqlite.tombstoneGlobalMemory scenAStore1 "x" metaD 1).2 = some 2 ∧
      getGlobalMemorySqlite scenAStore2 "x" false
        = Except.error MemErr.notFound ∧
      getGlobalMemorySqlite scenAStore2 "x" true =
        Except.ok
          { value := "a1"
            revision := 2
            updated_at := 1
            updated_by := some "owner"
            source_device_id := some "devA"
            deleted := true
            deleted_at := some 1
            deleted_by := some "owner"
            delete_reason := some "cleanup"
            infection_id := none }) := by
  constructor
  · unfold Sqlite.tombstoneGlobalMemory
    rw [hloc]
    exact ⟨_, rfl, rfl, rfl, rfl⟩
  · exact ⟨rfl, rfl, rfl, rfl⟩

/-- C8 witness: a one-row store holding a live entry at revision 1. -/
theorem C8_tombstone_is_metadata_only_witness :
    storeK (sampleLive 1) "k" = some (sampleLive 1) ∧
    (∃ e2,
      Sqlite.tombstoneGlobalMemory (storeK (sampleLive 1)) "k" metaD 9
        = (Store.update (storeK (sampleLive 1)) "k" e2,
            some ((sampleLive 1).revision + 1)) ∧
      e2.value = (sampleLive 1).value ∧
      e2.revision = (sampleLive 1).revision + 1 ∧ e2.deleted = true) :=
  ⟨rfl,
    (C8_tombstone_is_metadata_only (storeK (sampleLive 1)) "k" (sampleLive 1)
      metaD 9 rfl).1⟩

/-- C10: whenever pull writes to the local store (a live-value upsert, or a
tombstone of a key that exists locally), the new local revision is the
previous local revision plus one (0 + 1 for a fresh key); in particular the
remote revision number is never copied, so the new local revision equals
the remote revision exactly when the remote revision was the previous local
revision plus one. -/
theorem C10_pull_writes_local_increment (st : Store) (doc : RemoteDoc)
    (now : Nat) (hw : st doc.id ≠ none ∨ doc.deleted = false)
    (hp : (pullApplyGlobalDoc st doc now).2 = DocOutcome.pulled) :
    ∃ e2, (pullApplyGlobalDoc st doc now).1 doc.id = some e2 ∧
      e2.revision = Sqlite.revAt st doc.id + 1 ∧
      (e2.revision = doc.remoteRev ↔
        doc.remoteRev = Sqlite.revAt st doc.id + 1) := by
  unfold Sqlite.revAt
  rcases hcase : st doc.id with _ | e
  · have hlive : doc.deleted = false := by
      rcases hw with hw | hw
      · exact absurd hcase hw
      · exact hw
    unfold pullApplyGlobalDoc
    rw [hcase]
    simp only [hlive, Bool.false_eq_true, if_false]
    refine ⟨{ value := doc.value
              revision := 1
              updated_at := now
              updated_by := jsOrNull (pullSetMeta doc).updated_by
              source_device_id := jsOrNull (pullSetMeta doc).source_device_id
              deleted := false
              deleted_at := none
              deleted_by := none
              delete_reason := none
              infection_id := none }, ?_, rfl, eq_comm⟩
    simp [Sqlite.setGlobalMemory, hcase, Store.update]
  · unfold pullApplyGlobalDoc at hp ⊢
    rw [hcase] at hp ⊢
    by_cases hlt : doc.remoteRev < e.revision
    · simp [hlt] at hp
    · rcases hdel : doc.deleted with _ | _
      · by_cases hskip : e.deleted && decide (doc.remoteRev ≤ e.revision)
        · simp [hlt, hdel, hskip] at hp
        · simp only [hlt, if_false, hdel, Bool.false_eq_true, hskip,
            if_false]
          refine ⟨{ value := doc.value
                    revision := e.revision + 1
                    updated_at := now
                    updated_by := jsOrNull (pullSetMeta doc).updated_by
                    source_device_id :=
                      jsOrNull (pullSetMeta doc).source_device_id
                    deleted := false
                    deleted_at := none
                    deleted_by := none
                    delete_reason := none
                    infection_id := none }, ?_, rfl, eq_comm⟩
          simp [Sqlite.setGlobalMemory, hcase, Store.update]
      · simp only [hlt, if_false, hdel, if_true]
        refine ⟨{ e with
                  deleted := true
                  deleted_at := some now
                  deleted_by := jsOrNull (pullTombMeta doc).deleted_by
                  delete_reason := jsOrNull (pullTombMeta doc).delete_reason
                  infection_id := jsOrNull (pullTombMeta doc).infection_id
                  revision := e.revision + 1
                  updated_at := now
                  updated_by := jsOrNull (pullTombMeta doc).deleted_by
                  source_device_id :=
                    jsOrNull (pullTombMeta doc).source_device_id },
          ?_, rfl, eq_comm⟩
        simp [Sqlite.tombstoneGlobalMemory, hcase, Store.update]

/-- C10 witness: a local live row at revision 2 and a remote live document
at revision 3 (the Scenario D shape): the applied row gets local revision
3 = 2 + 1, which equals the remote revision because 3 = 2 + 1. -/
theorem C10_pull_writes_local_increment_witness :
    (storeK (sampleLive 2) (liveDoc 3).id ≠ none ∨ (liveDoc 3).deleted = false) ∧
    (pullApplyGlobalDoc (storeK (sampleLive 2)) (liveDoc 3) 7).2
      = DocOutcome.pulled ∧
    (∃ e2,
      (pullApplyGlobalDoc (storeK (sampleLive 2)) (liveDoc 3) 7).1
          (liveDoc 3).id = some e2 ∧
      e2.revision = Sqlite.revAt (storeK (sampleLive 2)) (liveDoc 3).id + 1 ∧
      (e2.revision = (liveDoc 3).remoteRev ↔
        (liveDoc 3).remoteRev
          = Sqlite.revAt (storeK (sampleLive 2)) (liveDoc 3).id + 1)) :=
  ⟨Or.inr rfl, by decide,
    C10_pull_writes_local_increment (storeK (sampleLive 2)) (liveDoc 3) 7
      (Or.inr rfl) (by decide)⟩

/-! Helper lemmas about the sync queue operations (shared, not tied to a
single claim). -/

/-- markSynced only flips the synced flag, so it preserves any row count
that ignores that flag. -/
theorem countP_markSynced (q : List QueueItem) (id : Nat)
    (p : QueueItem → Bool)
    (hp : ∀ it, p { it with synced := true } = p it) :
    (Sqlite.markSynced q id).countP p = q.countP p := by
  unfold Sqlite.markSynced
  rw [List.countP_map]
  refine List.countP_congr ?_
  intro x _
  by_cases hx : x.id = id
  · simp only [Function.comp_apply]
    rw [if_pos hx, hp x]
  · simp only [Function.comp_apply]
    rw [if_neg hx]

/-- The retry loop of retryDeadLetters only ever calls markSynced, so it
preserves any row count that ignores the synced flag. -/
theorem retryFold_countP (dead : List QueueItem) (rOk : Nat → Bool)
    (q : List QueueItem) (p : QueueItem → Bool)
    (hp : ∀ it, p { it with synced := true } = p it) :
    (dead.foldl
        (fun acc it =>
          if rOk it.id then Sqlite.markSynced acc it.id else acc) q).countP p
      = q.countP p := by
  induction dead generalizing q with
  | nil => rfl
  | cons d rest ih =>
    simp only [List.foldl_cons]
    by_cases hd : rOk d.id
    · rw [if_pos hd, ih, countP_markSynced _ _ _ hp]
    · rw [if_neg hd, ih]

/-- The deadLetters count reported by getSyncStatus is the number of rows
with dead_letter set. -/
theorem statusDeadLetters_eq_countP (q : List QueueItem) :
    (getSyncStatus q).deadLetters = q.countP (fun it => it.dead_letter) := by
  unfold getSyncStatus Sqlite.getDeadLetterItems
  simp [List.countP_eq_length_filter]

/-- C3 counterexample: one outbox item that was dead-lettered after 5
failures; retryDeadLetters with the remote available again re-pushes and
markSynced-s it (retried = 1, the item leaves pending), yet
getSyncStatus().deadLetters is still 1, not 0, because getDeadLetterItems
selects on dead_letter alone and markSynced never clears that flag. -/
theorem C3_counterexample :
    (retryDeadLetters [deadItem] true (fun _ => true)).1
      = [{ deadItem with synced := true }] ∧
    (retryDeadLetters [deadItem] true (fun _ => true)).2.1 = 1 ∧
    (getSyncStatus (retryDeadLetters [deadItem] true (fun _ => true)).1).pending
      = 0 ∧
    (getSyncStatus
        (retryDeadLetters [deadItem] true (fun _ => true)).1).deadLetters
      = 1 := by
  refine ⟨?_, rfl, rfl, rfl⟩
  rfl

/-- C3 amended: markSynced makes the item leave pending(), but it does not
clear dead_letter and getDeadLetterItems filters on dead_letter alone, so
the synced item is still in the dead-letter set; consequently
retryDeadLetters never changes getSyncStatus().deadLetters (a successfully
retried item keeps being counted; the count does not return to 0). -/
theorem C3_marksynced_keeps_dead_flag (q : List QueueItem) (it : QueueItem)
    (hmem : it ∈ q) (hdead : it.dead_letter = true) :
    ({ it with synced := true } ∈
        Sqlite.getDeadLetterItems (Sqlite.markSynced q it.id)) ∧
    ({ it with synced := true } ∉
        Sqlite.getPendingSyncItems (Sqlite.markSynced q it.id)) ∧
    (∀ fb rOk,
      (getSyncStatus (retryDeadLetters q fb rOk).1).deadLetters
        = (getSyncStatus q).deadLetters) := by
  refine ⟨?_, ?_, ?_⟩
  · unfold Sqlite.getDeadLetterItems Sqlite.markSynced
    rw [List.mem_filter]
    constructor
    · have h := List.mem_map_of_mem
        (fun x => if x.id = it.id then { x with synced := true } else x) hmem
      simpa using h
    · simpa using hdead
  · intro hc
    unfold Sqlite.getPendingSyncItems at hc
    rw [List.mem_filter] at hc
    simp at hc
  · intro fb rOk
    rw [statusDeadLetters_eq_countP, statusDeadLetters_eq_countP]
    unfold retryDeadLetters
    by_cases h1 : (Sqlite.getDeadLetterItems q).isEmpty
    · simp [h1]
    · by_cases h2 : fb
      · simp only [h1, Bool.false_eq_true, if_false, h2, Bool.not_true,
          if_false]
        exact retryFold_countP _ _ _ _ (fun _ => rfl)
      · simp [h1, h2]

/-- C3 amended witness: the singleton dead-lettered queue. -/
theorem C3_marksynced_keeps_dead_flag_witness :
    deadItem ∈ [deadItem] ∧ deadItem.dead_letter = true ∧
    (({ deadItem with synced := true } ∈
        Sqlite.getDeadLetterItems (Sqlite.markSynced [deadItem] deadItem.id)) ∧
      ({ deadItem with synced := true } ∉
        Sqlite.getPendingSyncItems (Sqlite.markSynced [deadItem] deadItem.id)) ∧
      (∀ fb rOk,
        (getSyncStatus (retryDeadLetters [deadItem] fb rOk).1).deadLetters
          = (getSyncStatus [deadItem]).deadLetters)) :=
  ⟨List.mem_singleton.mpr rfl, rfl,
    C3_marksynced_keeps_dead_flag [deadItem] deadItem
      (List.mem_singleton.mpr rfl) rfl⟩

/-! Helper lemmas about iterated markSyncFailed. -/

/-- failItem does not change the row id. -/
theorem failItemN_id (it : QueueItem) (errs : Nat → String) (n : Nat) :
    (Sqlite.failItemN it errs n).id = it.id := by
  induction n with
  | zero => rfl
  | succ m ih => simp [Sqlite.failItemN, Sqlite.failItem, ih]

/-- failItem does not change the synced flag. -/
theorem failItemN_synced (it : QueueItem) (errs : Nat → String) (n : Nat) :
    (Sqlite.failItemN it errs n).synced = it.synced := by
  induction n with
  | zero => rfl
  | succ m ih => simp [Sqlite.failItemN, Sqlite.failItem, ih]

/-- Each failure adds one to retry_count. -/
theorem failItemN_retry (it : QueueItem) (errs : Nat → String) (n : Nat) :
    (Sqlite.failItemN it errs n).retry_count = it.retry_count + n := by
  induction n with
  | zero => rfl
  | succ m ih =>
    simp only [Sqlite.failItemN, Sqlite.failItem, ih]
    omega

/-- A fresh row (retry_count 0, not dead) is dead-lettered after n failures
exactly when n reaches 5: dead_letter is recomputed from the pre-update
retry_count on every call. -/
theorem failItemN_dead (it : QueueItem) (errs : Nat → String) (n : Nat)
    (hr : it.retry_count = 0) (hd : it.dead_letter = false) :
    (Sqlite.failItemN it errs n).dead_letter = decide (5 ≤ n) := by
  cases n with
  | zero => simpa using hd
  | succ m =>
    simp only [Sqlite.failItemN, Sqlite.failItem, failItemN_retry, hr]
    rw [decide_eq_decide]
    omega

/-- One markSyncFailed call is the pointwise failItem rewrite of the rows
with the targeted id. -/
theorem markSyncFailed_eq_map (q : List QueueItem) (id : Nat) (err : String) :
    Sqlite.markSyncFailed q id err
      = q.map (fun x => if x.id = id then Sqlite.failItem x err else x) := rfl

/-- n calls of markSyncFailed on one id rewrite exactly the rows with that
id through n applications of failItem. -/
theorem markFailedN_eq_map (q : List QueueItem) (id : Nat)
    (errs : Nat → String) (n : Nat) :
    Sqlite.markFailedN q id errs n
      = q.map (fun x => if x.id = id then Sqlite.failItemN x errs n else x) := by
  induction n with
  | zero =>
    simp [Sqlite.markFailedN, Sqlite.failItemN]
  | succ m ih =>
    have hstep : Sqlite.markFailedN q id errs (m + 1)
        = Sqlite.markSyncFailed (Sqlite.markFailedN q id errs m) id (errs m) :=
      rfl
    have hfun :
        ((fun y => if y.id = id then Sqlite.failItem y (errs m) else y) ∘
          (fun x => if x.id = id then Sqlite.failItemN x errs m else x))
        = fun x => if x.id = id then Sqlite.failItemN x errs (m + 1) else x := by
      funext x
      by_cases hx : x.id = id
      · simp [Function.comp, hx, failItemN_id, Sqlite.failItemN]
      · simp [Function.comp, hx]
    rw [hstep, ih, markSyncFailed_eq_map, List.map_map, hfun]

/-- C4: markSyncFailed adds one to retry_count and records last_error; a
row with synced = false, retry_count 0 and no dead-letter flag that fails n
times has retry_count n, carries the last error message, and has
dead_letter exactly when n reached the threshold 5; at that point it is
excluded from pending(), while below the threshold it is still returned by
pending(). -/
theorem C4_dead_letter_threshold (q : List QueueItem) (it : QueueItem)
    (errs : Nat → String) (n : Nat) (hmem : it ∈ q) (hs : it.synced = false)
    (hr : it.retry_count = 0) (hd : it.dead_letter = false) :
    (∀ j e, (Sqlite.failItem j e).retry_count = j.retry_count + 1 ∧
      (Sqlite.failItem j e).last_error = some e) ∧
    (Sqlite.failItemN it errs n).retry_count = n ∧
    (1 ≤ n → (Sqlite.failItemN it errs n).last_error = some (errs (n - 1))) ∧
    (Sqlite.failItemN it errs n).dead_letter = decide (5 ≤ n) ∧
    (5 ≤ n →
      Sqlite.failItemN it errs n ∉
        Sqlite.getPendingSyncItems (Sqlite.markFailedN q it.id errs n)) ∧
    (n < 5 →
      Sqlite.failItemN it errs n ∈
        Sqlite.getPendingSyncItems (Sqlite.markFailedN q it.id errs n)) := by
  refine ⟨fun j e => ⟨rfl, rfl⟩, ?_, ?_, failItemN_dead it errs n hr hd, ?_, ?_⟩
  · rw [failItemN_retry, hr]
    omega
  · intro hn
    obtain ⟨m, rfl⟩ : ∃ m, n = m + 1 := ⟨n - 1, by omega⟩
    simp [Sqlite.failItemN, Sqlite.failItem]
  · intro hn hc
    unfold Sqlite.getPendingSyncItems at hc
    have hpred := (List.mem_filter.mp hc).2
    rw [failItemN_dead it errs n hr hd] at hpred
    simp [decide_eq_true hn] at hpred
  · intro hn
    unfold Sqlite.getPendingSyncItems
    rw [markFailedN_eq_map, List.mem_filter]
    constructor
    · have h := List.mem_map_of_mem
        (fun x => if x.id = it.id then Sqlite.failItemN x errs n else x) hmem
      simpa using h
    · rw [Bool.and_eq_true, failItemN_synced, hs,
        failItemN_dead it errs n hr hd]
      refine ⟨rfl, ?_⟩
      simp
      omega

/-- C4 witness: a fresh pending item failing 5 times is dead-lettered and
out of pending(); the same item failing 4 times is still pending. -/
theorem C4_dead_letter_threshold_witness :
    (freshItem ∈ [freshItem] ∧ freshItem.synced = false ∧
      freshItem.retry_count = 0 ∧ freshItem.dead_letter = false) ∧
    ((Sqlite.failItemN freshItem (fun _ => "err") 5).dead_letter
        = decide (5 ≤ 5) ∧
      (5 ≤ 5 →
        Sqlite.failItemN freshItem (fun _ => "err") 5 ∉
          Sqlite.getPendingSyncItems
            (Sqlite.markFailedN [freshItem] freshItem.id (fun _ => "err") 5))) ∧
    (4 < 5 →
      Sqlite.failItemN freshItem (fun _ => "err") 4 ∈
        Sqlite.getPendingSyncItems
          (Sqlite.markFailedN [freshItem] freshItem.id (fun _ => "err") 4)) :=
  ⟨⟨List.mem_singleton.mpr rfl, rfl, rfl, rfl⟩,
    ⟨(C4_dead_letter_threshold [freshItem] freshItem (fun _ => "err") 5
        (List.mem_singleton.mpr rfl) rfl rfl rfl).2.2.2.1,
      (C4_dead_letter_threshold [freshItem] freshItem (fun _ => "err") 5
        (List.mem_singleton.mpr rfl) rfl rfl rfl).2.2.2.2.1⟩,
    (C4_dead_letter_threshold [freshItem] freshItem (fun _ => "err") 4
      (List.mem_singleton.mpr rfl) rfl rfl rfl).2.2.2.2.2⟩

/-! Helper lemmas about revisions under the three mutations. -/

/-- setGlobalMemory returns the previous revision plus one (1 on a fresh
key, previous revision read as 0). -/
theorem setGlobalMemory_rev (st : Store) (key v : String) (meta : Meta)
    (now : Nat) :
    (Sqlite.setGlobalMemory st key v meta now).2 = Sqlite.revAt st key + 1 := by
  unfold Sqlite.setGlobalMemory Sqlite.revAt
  cases st key <;> simp

/-- The revision stored by setGlobalMemory equals the revision it
returns. -/
theorem setGlobalMemory_revAt (st : Store) (key v : String) (meta : Meta)
    (now : Nat) :
    Sqlite.revAt (Sqlite.setGlobalMemory st key v meta now).1 key
      = (Sqlite.setGlobalMemory st key v meta now).2 := by
  unfold Sqlite.setGlobalMemory Sqlite.revAt Store.update
  cases st key <;> simp

/-- When tombstoneGlobalMemory succeeds, it returns and stores the previous
revision plus one. -/
theorem tombstoneGlobalMemory_rev (st : Store) (key : String) (meta : Meta)
    (now : Nat) (st2 : Store) (r : Nat)
    (h : Sqlite.tombstoneGlobalMemory st key meta now = (st2, some r)) :
    r = Sqlite.revAt st key + 1 ∧ Sqlite.revAt st2 key = r := by
  cases hk : st key with
  | none =>
    have h2 := congrArg Prod.snd h
    simp [Sqlite.tombstoneGlobalMemory, hk] at h2
  | some e =>
    have heq : Sqlite.tombstoneGlobalMemory st key meta now
        = (Store.update st key
            { e with
              deleted := true
              deleted_at := some now
              deleted_by := jsOrNull meta.deleted_by
              delete_reason := jsOrNull meta.delete_reason
              infection_id := jsOrNull meta.infection_id
              revision := e.revision + 1
              updated_at := now
              updated_by := jsOrNull meta.deleted_by
              source_device_id := jsOrNull meta.source_device_id },
            some (e.revision + 1)) := by
      simp [Sqlite.tombstoneGlobalMemory, hk]
    rw [heq] at h
    have hr : e.revision + 1 = r := by
      simpa using congrArg Prod.snd h
    have hst : Store.update st key
        { e with
          deleted := true
          deleted_at := some now
          deleted_by := jsOrNull meta.deleted_by
          delete_reason := jsOrNull meta.delete_reason
          infection_id := jsOrNull meta.infection_id
          revision := e.revision + 1
          updated_at := now
          updated_by := jsOrNull meta.deleted_by
          source_device_id := jsOrNull meta.source_device_id } = st2 :=
      congrArg Prod.fst h
    subst hr
    subst hst
    constructor
    · simp [Sqlite.revAt, hk]
    · simp [Sqlite.revAt, Store.update]

/-- When restoreGlobalMemory succeeds, it returns and stores the previous
revision plus one. -/
theorem restoreGlobalMemory_rev (st : Store) (key : String) (meta : Meta)
    (now : Nat) (st2 : Store) (r : Nat)
    (h : Sqlite.restoreGlobalMemory st key meta now = (st2, some r)) :
    r = Sqlite.revAt st key + 1 ∧ Sqlite.revAt st2 key = r := by
  cases hk : st key with
  | none =>
    have h2 := congrArg Prod.snd h
    simp [Sqlite.restoreGlobalMemory, hk] at h2
  | some e =>
    by_cases hdel : e.deleted
    · have heq : Sqlite.restoreGlobalMemory st key meta now
          = (Store.update st key
              { e with
                deleted := false
                deleted_at := none
                deleted_by := none
                delete_reason := none
                infection_id := none
                revision := e.revision + 1
                updated_at := now
                updated_by := jsOrNull meta.updated_by
                source_device_id := jsOrNull meta.source_device_id },
              some (e.revision + 1)) := by
        simp [Sqlite.restoreGlobalMemory, hk, hdel]
      rw [heq] at h
      have hr : e.revision + 1 = r := by
        simpa using congrArg Prod.snd h
      have hst : Store.update st key
          { e with
            deleted := false
            deleted_at := none
            deleted_by := none
            delete_reason := none
            infection_id := none
            revision := e.revision + 1
            updated_at := now
            updated_by := jsOrNull meta.updated_by
            source_device_id := jsOrNull meta.source_device_id } = st2 :=
        congrArg Prod.fst h
      subst hr
      subst hst
      constructor
      · simp [Sqlite.revAt, hk]
      · simp [Sqlite.revAt, Store.update]
    · have h2 := congrArg Prod.snd h
      simp [Sqlite.restoreGlobalMemory, hk, hdel] at h2

/-- Any successful mutation returns the previous revision plus one and
stores exactly that revision. -/
theorem applyMutation_rev (st : Store) (key : String) (now : Nat)
    (m : Sqlite.Mutation) (st2 : Store) (r : Nat)
    (h : Sqlite.applyMutation st key now m = some (st2, r)) :
    r = Sqlite.revAt st key + 1 ∧ Sqlite.revAt st2 key = r := by
  cases m with
  | set v meta =>
    unfold Sqlite.applyMutation at h
    have hx := Option.some.inj h
    have h1 : (Sqlite.setGlobalMemory st key v meta now).1 = st2 :=
      congrArg Prod.fst hx
    have h2 : (Sqlite.setGlobalMemory st key v meta now).2 = r :=
      congrArg Prod.snd hx
    subst h1
    subst h2
    exact ⟨setGlobalMemory_rev st key v meta now,
      setGlobalMemory_revAt st key v meta now⟩
  | tombstone meta =>
    simp only [Sqlite.applyMutation] at h
    cases htmb : Sqlite.tombstoneGlobalMemory st key meta now with
    | mk sta ra =>
      cases ra with
      | none => rw [htmb] at h; simp at h
      | some rv =>
        rw [htmb] at h
        have hx := Option.some.inj h
        have h1 : sta = st2 := congrArg Prod.fst hx
        have h2 : rv = r := congrArg Prod.snd hx
        subst h1
        subst h2
        exact tombstoneGlobalMemory_rev st key meta now _ _ htmb
  | restore meta =>
    simp only [Sqlite.applyMutation] at h
    cases hres : Sqlite.restoreGlobalMemory st key meta now with
    | mk sta ra =>
      cases ra with
      | none => rw [hres] at h; simp at h
      | some rv =>
        rw [hres] at h
        have hx := Option.some.inj h
        have h1 : sta = st2 := congrArg Prod.fst hx
        have h2 : rv = r := congrArg Prod.snd hx
        subst h1
        subst h2
        exact restoreGlobalMemory_rev st key meta now _ _ hres

/-- A successful run of N mutations on one key yields exactly the revisions
previous + 1 .. previous + N, and leaves the key at previous + N. -/
theorem runMutations_range (key : String) (now : Nat) :
    ∀ (ms : List Sqlite.Mutation) (st st2 : Store) (rs : List Nat),
      Sqlite.runMutations key now st ms = some (st2, rs) →
      rs = List.range' (Sqlite.revAt st key + 1) ms.length ∧
      Sqlite.revAt st2 key = Sqlite.revAt st key + ms.length := by
  intro ms
  induction ms with
  | nil =>
    intro st st2 rs h
    unfold Sqlite.runMutations at h
    obtain ⟨h1, h2⟩ : st = st2 ∧ ([] : List Nat) = rs := by
      have := Option.some.inj h
      exact ⟨congrArg Prod.fst this, congrArg Prod.snd this⟩
    subst h1
    subst h2
    simp
  | cons m rest ih =>
    intro st st2 rs h
    cases ha : Sqlite.applyMutation st key now m with
    | none => simp [Sqlite.runMutations, ha] at h
    | some pr =>
      obtain ⟨st1, r⟩ := pr
      cases hrun : Sqlite.runMutations key now st1 rest with
      | none => simp [Sqlite.runMutations, ha, hrun] at h
      | some pr2 =>
        obtain ⟨st3, rs2⟩ := pr2
        simp only [Sqlite.runMutations, ha, hrun, Option.some.injEq,
          Prod.mk.injEq] at h
        obtain ⟨h1, h2⟩ := h
        subst h1
        subst h2
        obtain ⟨hr1, hr2⟩ := applyMutation_rev st key now m st1 r ha
        obtain ⟨ih1, ih2⟩ := ih st1 _ rs2 hrun
        subst hr1
        constructor
        · simp only [List.length_cons]
          rw [List.range'_succ, ih1, hr2]
        · rw [ih2, hr2]
          simp only [List.length_cons]
          omega

/-- C5: per-key revision monotonicity — a first set on a fresh key stores
revision 1; every successful mutation (set, tombstone or restore) on an
existing row returns and stores the previous revision plus one; hence a
successful sequence of N mutations on a fresh key yields the revision list
range(1, N) = 1..N with no gaps or repeats, and leaves the key at revision
N (each step strictly increases the stored revision, which therefore never
decreases). -/
theorem C5_revision_monotonicity (st : Store) (key v : String) (meta : Meta)
    (now : Nat) (ms : List Sqlite.Mutation) (st2 : Store) (rs : List Nat)
    (hfresh : st key = none)
    (hrun : Sqlite.runMutations key now st ms = some (st2, rs)) :
    (Sqlite.setGlobalMemory st key v meta now).2 = 1 ∧
    (∀ (st3 : Store) (e : Entry) (m : Sqlite.Mutation) (st4 : Store) (r : Nat),
      st3 key = some e → Sqlite.applyMutation st3 key now m = some (st4, r) →
      r = e.revision + 1 ∧ Sqlite.revAt st4 key = r) ∧
    rs = List.range' 1 ms.length ∧
    Sqlite.revAt st2 key = ms.length := by
  have hrev0 : Sqlite.revAt st key = 0 := by
    unfold Sqlite.revAt
    rw [hfresh]
  refine ⟨?_, ?_, ?_, ?_⟩
  · rw [setGlobalMemory_rev, hrev0]
  · intro st3 e m st4 r he ha
    have h := applyMutation_rev st3 key now m st4 r ha
    have : Sqlite.revAt st3 key = e.revision := by
      unfold Sqlite.revAt
      rw [he]
    rw [this] at h
    exact h
  · have h := (runMutations_range key now ms st st2 rs hrun).1
    rw [hrev0] at h
    exact h
  · have h := (runMutations_range key now ms st st2 rs hrun).2
    rw [hrev0] at h
    simpa using h

/-- C5 witness: set, tombstone, restore, set on a fresh key produce the
revisions 1, 2, 3, 4 and leave the key at revision 4. -/
theorem C5_revision_monotonicity_witness :
    emptyStore "k" = none ∧
    (∃ st2,
      Sqlite.runMutations "k" 3 emptyStore
          [Sqlite.Mutation.set "a" metaU, Sqlite.Mutation.tombstone metaD,
            Sqlite.Mutation.restore metaU, Sqlite.Mutation.set "b" metaU]
        = some (st2, [1, 2, 3, 4])) ∧
    (Sqlite.setGlobalMemory emptyStore "k" "a" metaU 3).2 = 1 :=
  ⟨rfl, ⟨_, rfl⟩,
    (C5_revision_monotonicity emptyStore "k" "a" metaU 3
      [Sqlite.Mutation.set "a" metaU, Sqlite.Mutation.tombstone metaD,
        Sqlite.Mutation.restore metaU, Sqlite.Mutation.set "b" metaU]
      _ _ rfl rfl).1⟩

/-- If any project entries query in the list failed, the project loop of
pull reports an error. -/
theorem pullProjects_error (projs : List (String × Except String (List RemoteDoc))) :
    ∀ (pm : PStore) (now : Nat),
      (∃ pr e, (pr, Except.error e) ∈ projs) →
      (pullProjects pm projs now).2.2.2 ≠ none := by
  induction projs with
  | nil =>
    rintro pm now ⟨pr, e, hmem⟩
    simp at hmem
  | cons hd rest ih =>
    rintro pm now ⟨pr, e, hmem⟩
    obtain ⟨pid, fetch⟩ := hd
    cases fetch with
    | error err =>
      simp [pullProjects]
    | ok docs =>
      have hrest : ∃ pr e, (pr, Except.error e) ∈ rest := by
        rcases List.mem_cons.mp hmem with hhd | htl
        · exact absurd (congrArg Prod.snd hhd) (by simp)
        · exact ⟨pr, e, htl⟩
      have h := ih (pullProjectEntries pm pid docs now).1 now hrest
      simpa [pullProjects] using h

/-- C7: when a remote read of the pull cycle fails (the global range query
or any project entries query), syncPull returns a status object of the
error form (it never throws — the model is a total function into
PullResult) and the devices table is untouched, so the last_sync cursor is
not advanced; the cursor is written only on the ok path, after every
fetched document has been processed. -/
theorem C7_pull_error_aborts (db : DbState) (dev : String)
    (gf : Except String (List RemoteDoc))
    (pf : List (String × Except String (List RemoteDoc))) (now : Nat)
    (herr : (∃ e, gf = Except.error e) ∨
      ∃ pr e, (pr, Except.error e) ∈ pf) :
    (∃ msg p s, (syncPull db dev true gf pf now).2
      = PullResult.error msg p s) ∧
    (syncPull db dev true gf pf now).1.devices = db.devices := by
  cases gf with
  | error e =>
    constructor
    · exact ⟨e, 0, some 0, rfl⟩
    · rfl
  | ok gdocs =>
    have hproj : ∃ pr e, (pr, Except.error e) ∈ pf := by
      rcases herr with ⟨e, he⟩ | h
      · exact absurd he (by simp)
      · exact h
    have herr2 := pullProjects_error pf
      ({ db with globalMem := (pullGlobalDocs db.globalMem gdocs now).1
         } : DbState).projectMem now hproj
    unfold syncPull
    cases hcase : (pullProjects
        ({ db with globalMem := (pullGlobalDocs db.globalMem gdocs now).1
          } : DbState).projectMem pf now).2.2.2 with
    | none => exact absurd hcase herr2
    | some msg =>
      simp only [Bool.not_true, Bool.false_eq_true, if_false, hcase]
      constructor
      · exact ⟨msg, _, _, rfl⟩
      · trivial

/-- C7 witness: a failing global range query; the result is the error
status and the device cursor map is unchanged. -/
theorem C7_pull_error_aborts_witness :
    ((∃ e, (Except.error "boom" : Except String (List RemoteDoc))
        = Except.error e) ∨
      ∃ pr e, (pr, Except.error e) ∈
        ([] : List (String × Except String (List RemoteDoc)))) ∧
    ((∃ msg p s,
        (syncPull emptyDb "devA" true (Except.error "boom") [] 7).2
          = PullResult.error msg p s) ∧
      (syncPull emptyDb "devA" true (Except.error "boom") [] 7).1.devices
        = emptyDb.devices) :=
  ⟨Or.inl ⟨"boom", rfl⟩,
    C7_pull_error_aborts emptyDb "devA" (Except.error "boom") [] 7
      (Or.inl ⟨"boom", rfl⟩)⟩

/-- The value of tombstoneGlobalMemory on an existing row, as an
equation. -/
theorem tombstoneGlobalMemory_eq_of_some (st : Store) (key : String)
    (meta : Meta) (now : Nat) (e : Entry) (hex : st key = some e) :
    Sqlite.tombstoneGlobalMemory st key meta now
      = (Store.update st key
          { e with
            deleted := true
            deleted_at := some now
            deleted_by := jsOrNull meta.deleted_by
            delete_reason := jsOrNull meta.delete_reason
            infection_id := jsOrNull meta.infection_id
            revision := e.revision + 1
            updated_at := now
            updated_by := jsOrNull meta.deleted_by
            source_device_id := jsOrNull meta.source_device_id },
          some (e.revision + 1)) := by
  simp [Sqlite.tombstoneGlobalMemory, hex]

/-- The value of restoreGlobalMemory on an existing tombstoned row, as an
equation. -/
theorem restoreGlobalMemory_eq_of_some (st : Store) (key : String)
    (meta : Meta) (now : Nat) (e : Entry) (hex : st key = some e)
    (hdel : e.deleted = true) :
    Sqlite.restoreGlobalMemory st key meta now
      = (Store.update st key
          { e with
            deleted := false
            deleted_at := none
            deleted_by := none
            delete_reason := none
            infection_id := none
            revision := e.revision + 1
            updated_at := now
            updated_by := jsOrNull meta.updated_by
            source_device_id := jsOrNull meta.source_device_id },
          some (e.revision + 1)) := by
  simp [Sqlite.restoreGlobalMemory, hex, hdel]

/-- C9: each caller-facing write commits the local mutation and returns its
new revision whether or not the remote write succeeds; a remote-write
failure is never surfaced as an error (the result is still ok), the local
state is the same as in the successful-remote run except that the mutation
is appended to the outbox, and only the reported status changes, from
synced, deleted or restored to queued, queued-delete or queued-restore. -/
theorem C9_remote_failure_degrades_to_queued (db : DbState)
    (ctx : MemoryService.Ctx) (ownerUid : Option String) (key value : String)
    (reason infId : Option String) (now : Nat) (uid owner : String)
    (e : Entry) (huid : jsOrNull ctx.uid = some uid) (hkey : key ≠ "")
    (howner : jsOrNull ownerUid = some owner)
    (hmatch : ctx.uid = some owner) (hex : db.globalMem key = some e)
    (hdel : e.deleted = true) :
    (∃ res dbT res2 dbF item,
      MemoryService.setGlobalMemory db ctx key value true now
        = Except.ok (res, dbT) ∧
      MemoryService.setGlobalMemory db ctx key value false now
        = Except.ok (res2, dbF) ∧
      res.status = "synced" ∧ res2.status = "queued" ∧
      res2.revision = res.revision ∧
      res.revision = Sqlite.revAt db.globalMem key + 1 ∧
      dbF.globalMem = dbT.globalMem ∧
      dbF.queue = dbT.queue ++ [item] ∧
      item.operation = SyncOp.set ∧ item.synced = false ∧
      item.dead_letter = false) ∧
    (∃ res dbT res2 dbF item,
      MemoryService.deleteGlobalMemory db ctx ownerUid key reason infId true now
        = Except.ok (res, dbT) ∧
      MemoryService.deleteGlobalMemory db ctx ownerUid key reason infId false now
        = Except.ok (res2, dbF) ∧
      res.status = "deleted" ∧ res2.status = "queued-delete" ∧
      res2.revision = res.revision ∧ res.revision = e.revision + 1 ∧
      dbF.globalMem = dbT.globalMem ∧
      dbF.queue = dbT.queue ++ [item] ∧
      item.operation = SyncOp.tombstone ∧ item.synced = false ∧
      item.dead_letter = false) ∧
    (∃ res dbT res2 dbF item,
      MemoryService.restoreGlobalMemory db ctx ownerUid key true now
        = Except.ok (res, dbT) ∧
      MemoryService.restoreGlobalMemory db ctx ownerUid key false now
        = Except.ok (res2, dbF) ∧
      res.status = "restored" ∧ res2.status = "queued-restore" ∧
      res2.revision = res.revision ∧ res.revision = e.revision + 1 ∧
      dbF.globalMem = dbT.globalMem ∧
      dbF.queue = dbT.queue ++ [item] ∧
      item.operation = SyncOp.set ∧ item.synced = false ∧
      item.dead_letter = false) := by
  refine ⟨?_, ?_, ?_⟩
  · simp only [MemoryService.setGlobalMemory, huid]
    rw [if_neg hkey, if_neg hkey]
    exact ⟨_, _, _, _, _, rfl, rfl, rfl, rfl, rfl,
      setGlobalMemory_rev db.globalMem key value
        { updated_by := (MemoryService.asMeta ctx).uid
          source_device_id := some (MemoryService.asMeta ctx).sourceDeviceId }
        now,
      rfl, rfl, rfl, rfl, rfl⟩
  · simp only [MemoryService.deleteGlobalMemory, huid, howner]
    rw [if_pos hmatch, if_pos hmatch]
    rw [tombstoneGlobalMemory_eq_of_some db.globalMem key _ now e hex]
    exact ⟨_, _, _, _, _, rfl, rfl, rfl, rfl, rfl, rfl, rfl, rfl, rfl, rfl,
      rfl⟩
  · simp only [MemoryService.restoreGlobalMemory, huid, howner]
    rw [if_pos hmatch, if_pos hmatch]
    rw [restoreGlobalMemory_eq_of_some db.globalMem key _ now e hex hdel]
    exact ⟨_, _, _, _, _, rfl, rfl, rfl, rfl, rfl, rfl, rfl, rfl, rfl, rfl,
      rfl⟩

/-- C9 witness: a database holding one tombstoned row at revision 1, an
authenticated owner context, and the three writes run with the remote both
available and unavailable. -/
theorem C9_remote_failure_degrades_to_queued_witness :
    (jsOrNull ctxOwner.uid = some "owner" ∧ ("k" : String) ≠ "" ∧
      jsOrNull (some "owner") = some "owner" ∧
      ctxOwner.uid = some "owner" ∧
      dbTomb.globalMem "k" = some (sampleTomb 1) ∧
      (sampleTomb 1).deleted = true) ∧
    (∃ res dbT res2 dbF item,
      MemoryService.setGlobalMemory dbTomb ctxOwner "k" "v" true 9
        = Except.ok (res, dbT) ∧
      MemoryService.setGlobalMemory dbTomb ctxOwner "k" "v" false 9
        = Except.ok (res2, dbF) ∧
      res.status = "synced" ∧ res2.status = "queued" ∧
      res2.revision = res.revision ∧
      res.revision = Sqlite.revAt dbTomb.globalMem "k" + 1 ∧
      dbF.globalMem = dbT.globalMem ∧
      dbF.queue = dbT.queue ++ [item] ∧
      item.operation = SyncOp.set ∧ item.synced = false ∧
      item.dead_letter = false) ∧
    (∃ res dbT res2 dbF item,
      MemoryService.deleteGlobalMemory dbTomb ctxOwner (some "owner") "k"
          none none true 9
        = Except.ok (res, dbT) ∧
      MemoryService.deleteGlobalMemory dbTomb ctxOwner (some "owner") "k"
          none none false 9
        = Except.ok (res2, dbF) ∧
      res.status = "deleted" ∧ res2.status = "queued-delete" ∧
      res2.revision = res.revision ∧
      res.revision = (sampleTomb 1).revision + 1 ∧
      dbF.globalMem = dbT.globalMem ∧
      dbF.queue = dbT.queue ++ [item] ∧
      item.operation = SyncOp.tombstone ∧ item.synced = false ∧
      item.dead_letter = false) ∧
    (∃ res dbT res2 dbF item,
      MemoryService.restoreGlobalMemory dbTomb ctxOwner (some "owner") "k"
          true 9
        = Except.ok (res, dbT) ∧
      MemoryService.restoreGlobalMemory dbTomb ctxOwner (some "owner") "k"
          false 9
        = Except.ok (res2, dbF) ∧
      res.status = "restored" ∧ res2.status = "queued-restore" ∧
      res2.revision = res.revision ∧
      res.revision = (sampleTomb 1).revision + 1 ∧
      dbF.globalMem = dbT.globalMem ∧
      dbF.queue = dbT.queue ++ [item] ∧
      item.operation = SyncOp.set ∧ item.synced = false ∧
      item.dead_letter = false) :=
  ⟨⟨rfl, by decide, rfl, rfl, rfl, rfl⟩,
    C9_remote_failure_degrades_to_queued dbTomb ctxOwner (some "owner")
      "k" "v" none none 9 "owner" "owner" (sampleTomb 1) rfl (by decide)
      rfl rfl rfl rfl⟩

end SwastikMcp
